import Mathlib

/-!
# Interview page controller (interview/static/js/interview.js)

A shallow embedding of the page controller: the module-level `state` object and the
DOM elements reached through `ui` become one record that the handlers transform;
calls that leave the page (fetch, the speech recognizer, alert, setTimeout) are
returned as a list of effects.  An `async` function is split at its `await`: the
part that runs on the call, and the part that runs when the request settles.

JavaScript strings are modelled by `String`, the numbers of the JSON payloads
(question index, totals, ratings) by exact integers, and a field that is
`undefined` or `null` by `none`.
-/

namespace Interview

/-! ## Strings of the platform -/

/-- White space and line terminators of ECMAScript, the code points that
`String.prototype.trim` strips. -/
def isJsWhitespace (c : Char) : Bool :=
  let n := c.toNat
  n == 0x09 || n == 0x0A || n == 0x0B || n == 0x0C || n == 0x0D || n == 0x20 ||
  n == 0xA0 || n == 0x1680 || (0x2000 ≤ n && n ≤ 0x200A) || n == 0x2028 ||
  n == 0x2029 || n == 0x202F || n == 0x205F || n == 0x3000 || n == 0xFEFF

/-- Strip leading and trailing white space from a list of characters. -/
def trimChars (l : List Char) : List Char :=
  ((l.dropWhile isJsWhitespace).reverse.dropWhile isJsWhitespace).reverse

/-- The method `String.prototype.trim`. -/
def jsTrim (s : String) : String := ⟨trimChars s.data⟩

/-- Truthiness of a string value: every string but the empty one. -/
def truthy (s : String) : Bool := s != ""

/-- Truthiness of an optional string field: present and not empty. -/
def truthyField : Option String → Bool
  | some s => truthy s
  | none => false

/-- The expression `a || b` for an optional string `a` and a string `b`. -/
def orString (a : Option String) (b : String) : String :=
  match a with
  | some s => if truthy s then s else b
  | none => b

/-- The expression `a || b` for an optional number `a` and a number `b`. -/
def orNat (a : Option Nat) (b : Nat) : Nat :=
  match a with
  | some n => if n != 0 then n else b
  | none => b

/-- The method `charAt(0)`: the first character as a string, empty for the empty string. -/
def charAt0 (s : String) : String := ⟨s.data.take 1⟩

/-- The method `slice(1)`: everything after the first character. -/
def slice1 (s : String) : String := ⟨s.data.drop 1⟩

/-- The method `Array.prototype.join` on an array of strings. -/
def jsJoin (sep : String) : List String → String
  | [] => ""
  | [a] => a
  | a :: b :: rest => a ++ sep ++ jsJoin sep (b :: rest)

/-- An upper-casing function for the ASCII letters, an instance of the platform's
`toUpperCase` on ASCII text. -/
def asciiUpper (s : String) : String := ⟨s.data.map Char.toUpper⟩

/-! ## Data model -/

/-- A question as delivered by the backend. -/
structure Question where
  id : Int
  question : Option String
  category : Option String
  difficulty : Option String
  guidance : Option String
  deriving DecidableEq

/-- The evaluation of an answer as delivered by the backend. -/
structure Evaluation where
  rating : Option Int
  feedback : Option String
  correct_answer : Option String
  followup_question : Option String
  deriving DecidableEq

/-- The recognizer object created by `initSpeechRecognition`. -/
structure Recognition where
  lang : String
  continuous : Bool
  interimResults : Bool
  deriving DecidableEq

/-- The module-level `state` object. `interviewIndex` is the property that
`startInterview` adds; it is absent before the first successful start. -/
structure State where
  interviewActive : Bool
  currentQuestion : Option Question
  totalQuestions : Nat
  speechSupported : Bool
  recognition : Option Recognition
  isRecording : Bool
  transcriptBuffer : String
  interviewIndex : Option Nat
  deriving DecidableEq

/-- The `disabled` property of the six buttons of `ui.buttons`. -/
structure Buttons where
  start : Bool
  record : Bool
  stopSend : Bool
  next : Bool
  skip : Bool
  end_ : Bool
  deriving DecidableEq

/-- The text and class of the elements of `ui`. -/
structure Ui where
  questionText : String
  questionMeta : String
  questionCounter : String
  feedbackBox : String
  transcriptBox : String
  answerBox : String
  ratingBadgeText : String
  ratingBadgeClass : String
  recordingIndicatorText : String
  recordingIndicatorClass : String
  statusMessageText : String
  statusMessageClass : String
  cameraStatusText : String
  cameraStatusClass : String
  videoAttached : Bool
  buttons : Buttons
  deriving DecidableEq

/-- The page: the `state` object together with the elements of `ui`. -/
structure World where
  state : State
  ui : Ui
  deriving DecidableEq

/-- The values of the form fields read by `startInterview`, after its trimming. -/
structure StartPayload where
  name : String
  role : String
  experience : String
  style : String
  job_description : String
  resume_text : String
  deriving DecidableEq

/-- The values of the form fields as the user left them. -/
structure Form where
  name : String
  role : String
  experience : String
  style : String
  jobDescription : String
  resumeSummary : String
  deriving DecidableEq

/-- Calls that leave the page. -/
inductive Effect where
  | fetchStart (payload : StartPayload)
  | fetchNext
  | fetchSubmit (questionId : Int) (answer : String)
  | recognitionStart
  | recognitionStop
  | addEndListener
  | alert (msg : String)
  | setTimeout (ms : Nat)
  | consoleError (msg : String)
  | consoleWarn
  deriving DecidableEq

/-- The JSON body of a start or next-question response. -/
structure QuestionData where
  error : Option String
  question : Option Question
  question_index : Option Nat
  total_questions : Option Nat
  deriving DecidableEq

/-- The JSON body of a submit-answer response. -/
structure SubmitData where
  error : Option String
  evaluation : Option Evaluation
  deriving DecidableEq

/-- How a request settles: `failed` when `fetch` or `res.json()` rejects with the
given message, otherwise a response with its `ok` flag and parsed body. -/
inductive FetchResult (α : Type) where
  | failed (message : String)
  | response (ok : Bool) (data : α)
  deriving DecidableEq

/-- One entry of `event.results`: the transcript of its first alternative and its
`isFinal` flag. -/
structure SpeechResult where
  transcript : String
  isFinal : Bool
  deriving DecidableEq

/-- A result event of the recognizer. -/
structure SpeechEvent where
  resultIndex : Nat
  results : List SpeechResult
  deriving DecidableEq

/-- The keys of `ui.buttons`. -/
inductive ButtonKey where
  | start | record | stopSend | next | skip | end_
  deriving DecidableEq

/-- The assignment `ui.buttons[key].disabled = v`. -/
def Buttons.setDisabled (b : Buttons) (key : ButtonKey) (v : Bool) : Buttons :=
  match key with
  | .start => { b with start := v }
  | .record => { b with record := v }
  | .stopSend => { b with stopSend := v }
  | .next => { b with next := v }
  | .skip => { b with skip := v }
  | .end_ => { b with end_ := v }

/-- The value `ui.buttons[key].disabled`. -/
def Buttons.disabled (b : Buttons) (key : ButtonKey) : Bool :=
  match key with
  | .start => b.start
  | .record => b.record
  | .stopSend => b.stopSend
  | .next => b.next
  | .skip => b.skip
  | .end_ => b.end_

/-! ## Functions of the controller -/

/-- The function `setStatus(message, tone)`. -/
def setStatus (w : World) (message : String) (tone : String) : World :=
  { w with ui := { w.ui with statusMessageText := message,
                             statusMessageClass := "small text-" ++ tone } }

/-- The function `updateInteractionState(enabled)`. -/
def updateInteractionState (w : World) (enabled : Bool) : World :=
  let btns : List ButtonKey := [.record, .stopSend, .next, .skip, .end_]
  let b1 := btns.foldl (fun b key => b.setDisabled key (!enabled)) w.ui.buttons
  let w1 : World := { w with ui := { w.ui with buttons := b1 } }
  if !w1.state.speechSupported then
    { w1 with ui := { w1.ui with
        buttons := (w1.ui.buttons.setDisabled .record true).setDisabled .stopSend true,
        recordingIndicatorText := "No Mic",
        recordingIndicatorClass := "badge bg-secondary" } }
  else w1

/-- The function `capitalize(str)`; `toUpperCase` is the platform's method. -/
def capitalize (toUpperCase : String → String) (str : String) : String :=
  if truthy str then toUpperCase (charAt0 str) ++ slice1 str else ""

/-- The array `metaPieces` that `renderQuestion` builds by successive `push` calls. -/
def metaPieces (toUpperCase : String → String) (question : Question) : List String :=
  let p0 : List String := []
  let p1 := if truthyField question.category
    then p0 ++ ["Category: " ++ capitalize toUpperCase (question.category.getD "")] else p0
  let p2 := if truthyField question.difficulty
    then p1 ++ ["Difficulty: " ++ capitalize toUpperCase (question.difficulty.getD "")] else p1
  let p3 := if truthyField question.guidance
    then p2 ++ ["Focus: " ++ question.guidance.getD ""] else p2
  p3

/-- The function `renderQuestion(question, index = 0, total = 0)`. -/
def renderQuestion (toUpperCase : String → String) (w : World)
    (question : Option Question) (index : Option Nat) (total : Option Nat) : World :=
  match question with
  | none =>
    { w with ui := { w.ui with
        questionText := "Waiting for the next question...",
        questionMeta := "",
        questionCounter := "Q - / -" } }
  | some q =>
    let index := index.getD 0
    let total := total.getD 0
    { state := { w.state with currentQuestion := some q },
      ui := { w.ui with
        questionText := orString q.question "Question unavailable.",
        questionMeta := jsJoin " • " (metaPieces toUpperCase q),
        questionCounter :=
          "Q " ++ toString (index + 1) ++ " / " ++
            toString (if total != 0 then total else w.state.totalQuestions),
        answerBox := "",
        recordingIndicatorText := "Idle",
        recordingIndicatorClass := "badge bg-secondary" } }

/-- The function `resetInterview(message)`. -/
def resetInterview (w : World) (message : String) : World :=
  let w1 : World := { w with state := { w.state with
      interviewActive := false, currentQuestion := none, totalQuestions := 0 } }
  let w2 : World := { w1 with ui := { w1.ui with
      questionText := "Interview ended.",
      questionMeta := "",
      questionCounter := "Q 0 / 0",
      feedbackBox := "After you answer, AI feedback will appear here.",
      transcriptBox := "Press 🎤 Start Recording to capture your answer.",
      answerBox := "" } }
  let w3 := updateInteractionState w2 false
  let w4 : World := { w3 with ui := { w3.ui with
      buttons := w3.ui.buttons.setDisabled .start false } }
  setStatus w4 (if truthy message then message else "Interview reset.") "secondary"

/-- The synchronous part of `startInterview`, up to the `await fetch`. -/
def startInterview (w : World) (form : Form) : World × List Effect :=
  let payload : StartPayload :=
    { name := jsTrim form.name,
      role := jsTrim form.role,
      experience := form.experience,
      style := form.style,
      job_description := jsTrim form.jobDescription,
      resume_text := jsTrim form.resumeSummary }
  let w1 := setStatus w "Generating interview questions..." "primary"
  let w2 : World := { w1 with ui := { w1.ui with
      buttons := w1.ui.buttons.setDisabled .start true } }
  (w2, [.fetchStart payload])

/-- The `catch` block of `startInterview`. -/
def startInterviewCatch (w : World) (message : String) : World × List Effect :=
  let w1 := setStatus w message "danger"
  ({ w1 with ui := { w1.ui with buttons := w1.ui.buttons.setDisabled .start false } },
   [.consoleError message])

/-- The rest of `startInterview`, run when its request settles. -/
def startInterviewResume (toUpperCase : String → String) (w : World)
    (r : FetchResult QuestionData) : World × List Effect :=
  match r with
  | .failed message => startInterviewCatch w message
  | .response false data =>
    startInterviewCatch w (orString data.error "Unable to start interview.")
  | .response true data =>
    let w1 : World := { w with state := { w.state with
        interviewActive := true,
        currentQuestion := data.question,
        totalQuestions := orNat data.total_questions 0,
        interviewIndex := some (orNat data.question_index 0) } }
    let w2 := renderQuestion toUpperCase w1 data.question data.question_index
      data.total_questions
    let w3 : World := { w2 with ui := { w2.ui with
        feedbackBox := "After you answer, AI feedback will appear here.",
        transcriptBox := "Listening ready. Press 🎤 Start Recording when you are ready.",
        answerBox := "" } }
    let w4 := updateInteractionState w3 true
    (setStatus w4 "Interview in progress. Answer the question when ready." "success", [])

/-- The function `initCamera`; `hasMedia` tells whether `getUserMedia` exists. -/
def initCamera (w : World) (hasMedia : Bool) : World :=
  if !hasMedia then
    { w with ui := { w.ui with
        cameraStatusText := "Camera Unsupported",
        cameraStatusClass := "badge bg-secondary" } }
  else w

/-- The `then` callback of the camera request. -/
def cameraGranted (w : World) : World :=
  { w with ui := { w.ui with
      videoAttached := true,
      cameraStatusText := "Camera On",
      cameraStatusClass := "badge bg-success-subtle text-success" } }

/-- The `catch` callback of the camera request. -/
def cameraDenied (w : World) : World :=
  { w with ui := { w.ui with
      cameraStatusText := "Camera Blocked",
      cameraStatusClass := "badge bg-danger-subtle text-danger" } }

/-- The function `initSpeechRecognition`, without the handlers it installs;
`speechApi` tells whether the browser has a recognizer, `language` is
`navigator.language`. -/
def initSpeechRecognition (w : World) (speechApi : Bool) (language : String) : World :=
  if !speechApi then
    { w with ui := { w.ui with transcriptBox :=
        "Speech recognition is not supported in this browser. Please type your answers." } }
  else
    { w with state := { w.state with
        speechSupported := true,
        recognition := some
          { lang := if truthy language then language else "en-US",
            continuous := true,
            interimResults := true } } }

/-- The handler `recognition.onstart`. -/
def onstart (w : World) : World :=
  { state := { w.state with transcriptBuffer := "" },
    ui := { w.ui with
      recordingIndicatorText := "Recording...",
      recordingIndicatorClass := "badge bg-danger",
      transcriptBox := "Listening..." } }

/-- The `for` loop of `recognition.onresult`, from index `i` on, carrying
`state.transcriptBuffer` and the local `interim`. -/
def onresultLoop (results : List SpeechResult) (i : Nat) (buffer interim : String) :
    String × String :=
  if h : i < results.length then
    let r := results[i]
    if r.isFinal then
      onresultLoop results (i + 1) (buffer ++ (r.transcript ++ " ")) interim
    else
      onresultLoop results (i + 1) buffer r.transcript
  else (buffer, interim)
termination_by results.length - i

/-- The handler `recognition.onresult`. -/
def onresult (w : World) (event : SpeechEvent) : World :=
  let p := onresultLoop event.results event.resultIndex w.state.transcriptBuffer ""
  let combined := jsTrim (p.1 ++ p.2)
  { state := { w.state with transcriptBuffer := p.1 },
    ui := { w.ui with
      answerBox := combined,
      transcriptBox := if truthy combined then combined else "Listening..." } }

/-- The handler `recognition.onend`. -/
def onend (w : World) : World × List Effect :=
  if w.state.isRecording then
    (w, [.recognitionStart])
  else
    ({ w with ui := { w.ui with
        recordingIndicatorText := "Idle",
        recordingIndicatorClass := "badge bg-secondary" } }, [])

/-- The function `startRecording`. -/
def startRecording (w : World) : World × List Effect :=
  if !w.state.speechSupported || w.state.recognition.isNone then
    (w, [.alert "Speech recognition not supported in this browser."])
  else if !w.state.interviewActive || w.state.currentQuestion.isNone then
    (setStatus w "Start the interview before recording." "danger", [])
  else if w.state.isRecording then
    (w, [])
  else
    ({ w with state := { w.state with isRecording := true } }, [.recognitionStart])

/-- The function `stopRecording`. When it returns the effect `addEndListener` its
promise resolves on the next end event of the recognizer; otherwise the promise is
already resolved. -/
def stopRecording (w : World) : World × List Effect :=
  if !w.state.isRecording || w.state.recognition.isNone then
    (w, [])
  else
    ({ w with state := { w.state with isRecording := false } },
     [.addEndListener, .recognitionStop])

/-- The handler `recognition.onerror`; `error` is `event.error`. -/
def onerror (w : World) (error : Option String) : World × List Effect :=
  let w1 := setStatus w ("Microphone error: " ++ orString error "unknown") "danger"
  let p := stopRecording w1
  (p.1, .consoleWarn :: p.2)

/-- The synchronous part of `submitAnswer`, up to the `await fetch`. -/
def submitAnswer (w : World) : World × List Effect :=
  match w.state.interviewActive, w.state.currentQuestion with
  | true, some q =>
    let answer := jsTrim w.ui.answerBox
    if !truthy answer then
      (setStatus w "Please provide an answer before sending." "danger", [])
    else
      let w1 := setStatus w "Evaluating your answer..." "primary"
      (updateInteractionState w1 false, [.fetchSubmit q.id answer])
  | _, _ => (setStatus w "No active question to answer." "danger", [])

/-- The array `lines` that `displayFeedback` builds by successive `push` calls. -/
def feedbackLines (evaluation : Evaluation) : List String :=
  let l0 : List String := []
  let l1 := if truthyField evaluation.feedback
    then l0 ++ ["Feedback:\n" ++ evaluation.feedback.getD ""] else l0
  let l2 := if truthyField evaluation.correct_answer
    then l1 ++ ["Ideal Answer:\n" ++ evaluation.correct_answer.getD ""] else l1
  let l3 := if truthyField evaluation.followup_question
    then l2 ++ ["Follow-up Question:\n" ++ evaluation.followup_question.getD ""] else l2
  l3

/-- The function `displayFeedback(evaluation)`. A missing rating is replaced by a
dash, which compares false with every number. -/
def displayFeedback (w : World) (evaluation : Evaluation) : World :=
  let ratingText : String :=
    match evaluation.rating with
    | some r => toString r
    | none => "—"
  let badgeClass : String :=
    match evaluation.rating with
    | some r =>
      if r ≥ 4 then "badge bg-success"
      else if r ≥ 2 then "badge bg-warning"
      else "badge bg-danger"
    | none => "badge bg-danger"
  let joined := jsJoin "\n\n" (feedbackLines evaluation)
  { w with ui := { w.ui with
      ratingBadgeText := "Rating: " ++ ratingText,
      ratingBadgeClass := badgeClass,
      feedbackBox := if truthy joined then joined else "No feedback returned." } }

/-- The `catch` block of `submitAnswer`. -/
def submitAnswerCatch (w : World) (message : String) : World × List Effect :=
  (updateInteractionState (setStatus w message "danger") true, [.consoleError message])

/-- The default value of the parameter of `displayFeedback`, the empty object. -/
def emptyEvaluation : Evaluation :=
  { rating := none, feedback := none, correct_answer := none, followup_question := none }

/-- The rest of `submitAnswer`, run when its request settles. -/
def submitAnswerResume (w : World) (r : FetchResult SubmitData) : World × List Effect :=
  match r with
  | .failed message => submitAnswerCatch w message
  | .response false data => submitAnswerCatch w (orString data.error "Evaluation failed.")
  | .response true data =>
    let w1 := displayFeedback w (data.evaluation.getD emptyEvaluation)
    (setStatus w1 "Answer evaluated. Loading the next question..." "success",
     [.setTimeout 1200])

/-- The synchronous part of `loadNextQuestion`, up to the `await fetch`. -/
def loadNextQuestion (w : World) : World × List Effect :=
  if !w.state.interviewActive then (w, []) else (w, [.fetchNext])

/-- The `catch` block of `loadNextQuestion`. -/
def loadNextQuestionCatch (w : World) (message : String) : World × List Effect :=
  (updateInteractionState (setStatus w message "danger") true, [.consoleError message])

/-- The rest of `loadNextQuestion`, run when its request settles. -/
def loadNextQuestionResume (toUpperCase : String → String) (w : World)
    (r : FetchResult QuestionData) : World × List Effect :=
  match r with
  | .failed message => loadNextQuestionCatch w message
  | .response false data =>
    loadNextQuestionCatch w (orString data.error "Unable to fetch next question.")
  | .response true data =>
    let w1 : World := { w with state := { w.state with
        totalQuestions := orNat data.total_questions w.state.totalQuestions } }
    let w2 := renderQuestion toUpperCase w1 data.question data.question_index
      data.total_questions
    let w3 : World := { w2 with ui := { w2.ui with
        answerBox := "",
        transcriptBox := "Press 🎤 Start Recording when you are ready." } }
    let w4 := setStatus w3 "Next question loaded." "primary"
    (updateInteractionState w4 true, [])

/-- The click handler of the next button. -/
def nextClick (w : World) : World × List Effect :=
  if !w.state.interviewActive then (w, []) else loadNextQuestion w

/-- The click handler of the skip button. -/
def skipClick (w : World) : World × List Effect :=
  let w1 : World := { w with ui := { w.ui with
      answerBox := "",
      transcriptBox := "Question skipped. Loading the next one..." } }
  loadNextQuestion w1

/-- The click handler of the end button. -/
def endClick (w : World) : World :=
  resetInterview w "Interview ended. Feel free to start again."

/-! ## The page as an event-driven system -/

/-- The page together with what the browser holds for it: the requests and the
timer that have not completed yet, the `handleEnd` listeners registered on the
recognizer (`true` for one awaited by the stop-and-send handler, which then calls
`submitAnswer`), whether the camera request is outstanding, and the effects issued
so far. -/
structure Sys where
  w : World
  pendingStart : Nat
  pendingNext : Nat
  pendingSubmit : Nat
  timers : Nat
  endListeners : List Bool
  cameraPending : Bool
  log : List Effect
  deriving DecidableEq

/-- What the user and the browser can do to the page. -/
inductive Event where
  | clickStart (form : Form)
  | startSettled (r : FetchResult QuestionData)
  | clickRecord
  | clickStopSend
  | clickNext
  | clickSkip
  | clickEnd
  | nextSettled (r : FetchResult QuestionData)
  | submitSettled (r : FetchResult SubmitData)
  | timerFired
  | typeAnswer (text : String)
  | speechStart
  | speechResult (e : SpeechEvent)
  | speechError (error : Option String)
  | speechEnd
  | cameraStream
  | cameraError
  deriving DecidableEq

/-- Record the effects of a handler: every request and timer becomes outstanding. -/
def Sys.record (s : Sys) (p : World × List Effect) : Sys :=
  { s with
    w := p.1,
    pendingStart := s.pendingStart +
      (p.2.filter (fun e => match e with | .fetchStart _ => true | _ => false)).length,
    pendingNext := s.pendingNext + p.2.count .fetchNext,
    pendingSubmit := s.pendingSubmit +
      (p.2.filter (fun e => match e with | .fetchSubmit _ _ => true | _ => false)).length,
    timers := s.timers +
      (p.2.filter (fun e => match e with | .setTimeout _ => true | _ => false)).length,
    log := s.log ++ p.2 }

/-- The continuations of the `handleEnd` listeners when the recognizer ends: each
listener awaited by the stop-and-send handler goes on to `submitAnswer`. -/
def resumeEndListeners (s : Sys) : List Bool → Sys
  | [] => s
  | true :: rest => resumeEndListeners (s.record (submitAnswer s.w)) rest
  | false :: rest => resumeEndListeners s rest

/-- One event of the page. A click on a disabled button, the completion of a
request that is not outstanding, and a recognizer event without a recognizer do
nothing. -/
def step (toUpperCase : String → String) (s : Sys) : Event → Sys
  | .clickStart form =>
    if s.w.ui.buttons.start then s else s.record (startInterview s.w form)
  | .startSettled r =>
    if s.pendingStart = 0 then s
    else { s with pendingStart := s.pendingStart - 1 }.record
      (startInterviewResume toUpperCase s.w r)
  | .clickRecord =>
    if s.w.ui.buttons.record then s else s.record (startRecording s.w)
  | .clickStopSend =>
    if s.w.ui.buttons.stopSend then s
    else
      let p := stopRecording s.w
      if Effect.addEndListener ∈ p.2 then
        { s.record p with endListeners := s.endListeners ++ [true] }
      else
        (s.record p).record (submitAnswer p.1)
  | .clickNext =>
    if s.w.ui.buttons.next then s else s.record (nextClick s.w)
  | .clickSkip =>
    if s.w.ui.buttons.skip then s else s.record (skipClick s.w)
  | .clickEnd =>
    if s.w.ui.buttons.end_ then s else s.record (endClick s.w, [])
  | .nextSettled r =>
    if s.pendingNext = 0 then s
    else { s with pendingNext := s.pendingNext - 1 }.record
      (loadNextQuestionResume toUpperCase s.w r)
  | .submitSettled r =>
    if s.pendingSubmit = 0 then s
    else { s with pendingSubmit := s.pendingSubmit - 1 }.record (submitAnswerResume s.w r)
  | .timerFired =>
    if s.timers = 0 then s
    else { s with timers := s.timers - 1 }.record (loadNextQuestion s.w)
  | .typeAnswer text =>
    { s with w := { s.w with ui := { s.w.ui with answerBox := text } } }
  | .speechStart =>
    if s.w.state.recognition.isNone then s else s.record (onstart s.w, [])
  | .speechResult e =>
    if s.w.state.recognition.isNone then s else s.record (onresult s.w e, [])
  | .speechError error =>
    if s.w.state.recognition.isNone then s
    else
      let p := onerror s.w error
      if Effect.addEndListener ∈ p.2 then
        { s.record p with endListeners := s.endListeners ++ [false] }
      else s.record p
  | .speechEnd =>
    if s.w.state.recognition.isNone then s
    else
      let s1 := s.record (onend s.w)
      resumeEndListeners { s1 with endListeners := [] } s.endListeners
  | .cameraStream =>
    if s.cameraPending then { s with w := cameraGranted s.w, cameraPending := false } else s
  | .cameraError =>
    if s.cameraPending then { s with w := cameraDenied s.w, cameraPending := false } else s

/-- The page after a sequence of events. -/
def run (toUpperCase : String → String) (s : Sys) (events : List Event) : Sys :=
  events.foldl (step toUpperCase) s

/-- The initial value of the `state` object. -/
def initialState : State :=
  { interviewActive := false,
    currentQuestion := none,
    totalQuestions := 0,
    speechSupported := false,
    recognition := none,
    isRecording := false,
    transcriptBuffer := "",
    interviewIndex := none }

/-- The `DOMContentLoaded` handler: `page` is the document as loaded, `hasMedia` and
`speechApi` tell which browser capabilities exist. -/
def domContentLoaded (page : Ui) (hasMedia speechApi : Bool) (language : String) : Sys :=
  let w0 : World := { state := initialState, ui := page }
  let w1 := initCamera w0 hasMedia
  let w2 := initSpeechRecognition w1 speechApi language
  let w3 := updateInteractionState w2 false
  { w := w3, pendingStart := 0, pendingNext := 0, pendingSubmit := 0, timers := 0,
    endListeners := [], cameraPending := hasMedia, log := [] }

/-- Modelled from the spec: the markup of the page is not part of the source. The
elements are taken empty and the buttons without a `disabled` attribute, so that the
start action is available on the idle page. -/
def blankPage : Ui :=
  { questionText := "", questionMeta := "", questionCounter := "", feedbackBox := "",
    transcriptBox := "", answerBox := "", ratingBadgeText := "", ratingBadgeClass := "",
    recordingIndicatorText := "", recordingIndicatorClass := "",
    statusMessageText := "", statusMessageClass := "",
    cameraStatusText := "", cameraStatusClass := "", videoAttached := false,
    buttons := { start := false, record := false, stopSend := false, next := false,
                 skip := false, end_ := false } }

/-- Concatenation of a list of strings, in order. -/
def concatAll : List String → String
  | [] => ""
  | a :: rest => a ++ concatAll rest

/-- The text that a result event adds to the buffer, following the description:
the transcripts of the finalized results, in order, each followed by one space. -/
def finalizedText (results : List SpeechResult) : String :=
  concatAll ((results.filter (fun r => r.isFinal)).map (fun r => r.transcript ++ " "))

/-- The transcript of the last interim (non-final) result of a list, `fallback`
when it has none. -/
def lastInterimOr (fallback : String) (results : List SpeechResult) : String :=
  match (results.filter (fun r => !r.isFinal)).getLast? with
  | some r => r.transcript
  | none => fallback

/-- The transcript of the last interim result of a list, empty when it has none. -/
def lastInterim (results : List SpeechResult) : String :=
  lastInterimOr "" results

/-- The loop of `onresult` read as a traversal of the results still to visit. -/
def scanResults : List SpeechResult → String → String → String × String
  | [], buffer, interim => (buffer, interim)
  | r :: rest, buffer, interim =>
    if r.isFinal then scanResults rest (buffer ++ (r.transcript ++ " ")) interim
    else scanResults rest buffer r.transcript

/-- The condition under which a recording may start: speech is supported (the flag
is set and the recognizer exists), the interview is active with a current question,
and no recording is open. -/
def canStartRecording (w : World) : Prop :=
  w.state.speechSupported = true ∧ w.state.recognition ≠ none ∧
  w.state.interviewActive = true ∧ w.state.currentQuestion ≠ none ∧
  w.state.isRecording = false

/-- A page with speech support, an active interview and a current question. -/
def readyWorld : World :=
  { state := { initialState with
      interviewActive := true,
      currentQuestion := some
        { id := 1, question := some "Tell me about yourself", category := some "general",
          difficulty := some "easy", guidance := none },
      totalQuestions := 5,
      speechSupported := true,
      recognition := some { lang := "en-US", continuous := true, interimResults := true },
      interviewIndex := some 0 },
    ui := blankPage }

/-- The invariant of the session: no question is current while the interview is
inactive. -/
def QuestionOnlyWhileActive (w : World) : Prop :=
  w.state.interviewActive = false → w.state.currentQuestion = none

/-- A next-question response that is successful, carries a question and arrives
while the interview is inactive: the response to a request that was issued before
the interview ended. -/
def isLateQuestion (s : Sys) : Event → Bool
  | .nextSettled (.response true data) =>
    !s.w.state.interviewActive && data.question.isSome
  | _ => false

/-- No event of the sequence is a late question, each event taken in the state in
which it arrives. -/
def noLateQuestion (toUpperCase : String → String) (s : Sys) : List Event → Bool
  | [] => true
  | e :: rest =>
    !isLateQuestion s e && noLateQuestion toUpperCase (step toUpperCase s e) rest

/-- A form left empty. -/
def blankForm : Form :=
  { name := "", role := "", experience := "", style := "", jobDescription := "",
    resumeSummary := "" }

/-- The first question of an interview of five. -/
def firstQuestion : QuestionData :=
  { error := none,
    question := some
      { id := 1, question := some "Tell me about yourself", category := some "general",
        difficulty := some "easy", guidance := none },
    question_index := some 0,
    total_questions := some 5 }

/-- The second question of an interview of five. -/
def secondQuestion : QuestionData :=
  { error := none,
    question := some
      { id := 2, question := some "Describe a hard bug", category := some "technical",
        difficulty := some "medium", guidance := some "debugging" },
    question_index := some 1,
    total_questions := some 5 }

/-- A run in which the user asks for the next question and ends the interview before
the response arrives. -/
def lateResponseRun : Sys :=
  run asciiUpper (domContentLoaded blankPage false false "en-US")
    [.clickStart blankForm, .startSettled (.response true firstQuestion), .clickNext,
     .clickEnd, .nextSettled (.response true secondQuestion)]

/-- A run in which every response arrives before the user ends the interview. -/
def orderlyRun : List Event :=
  [.clickStart blankForm, .startSettled (.response true firstQuestion), .clickNext,
   .nextSettled (.response true secondQuestion), .clickEnd]

/-- A run in which the user ends the interview while a recording is open, in a
browser with a recognizer. -/
def endWhileRecording : Sys :=
  run asciiUpper (domContentLoaded blankPage false true "en-US")
    [.clickStart blankForm, .startSettled (.response true firstQuestion), .clickRecord,
     .speechStart, .clickEnd]

/-! ## Auxiliary facts -/

theorem trimChars_of_all_whitespace (l : List Char)
    (h : ∀ c ∈ l, isJsWhitespace c = true) : trimChars l = [] := by
  have h1 : l.dropWhile isJsWhitespace = [] := List.dropWhile_eq_nil_iff.mpr h
  simp [trimChars, h1]

theorem jsTrim_of_all_whitespace (s : String)
    (h : ∀ c ∈ s.data, isJsWhitespace c = true) : jsTrim s = "" := by
  simp [jsTrim, trimChars_of_all_whitespace s.data h]

theorem truthy_empty : truthy "" = false := by
  decide

/-! ## Reset -/

/-- C1: from every state, `resetInterview` leaves `interviewActive = false`,
`currentQuestion = null` and `totalQuestions = 0`, and afterwards the start button
is enabled while record, stopSend, next, skip and end are disabled, with or without
speech support. -/
theorem resetInterview_idle (w : World) (message : String) :
    (resetInterview w message).state.interviewActive = false ∧
    (resetInterview w message).state.currentQuestion = none ∧
    (resetInterview w message).state.totalQuestions = 0 ∧
    (resetInterview w message).ui.buttons.start = false ∧
    (resetInterview w message).ui.buttons.record = true ∧
    (resetInterview w message).ui.buttons.stopSend = true ∧
    (resetInterview w message).ui.buttons.next = true ∧
    (resetInterview w message).ui.buttons.skip = true ∧
    (resetInterview w message).ui.buttons.end_ = true := by
  cases hs : w.state.speechSupported <;>
    simp [resetInterview, updateInteractionState, setStatus, Buttons.setDisabled, hs]

/-! ## Empty answers -/

/-- C2: when the answer box is empty or holds only white space, `submitAnswer`
issues no effect at all (no request, no timer for a later next-question call),
leaves the `state` object as it was, and changes nothing of the page but the text
and class of the status message: the buttons and every other element are as before. -/
theorem submitAnswer_blank (w : World)
    (h : ∀ c ∈ w.ui.answerBox.data, isJsWhitespace c = true) :
    (submitAnswer w).2 = [] ∧
    (submitAnswer w).1.state = w.state ∧
    (submitAnswer w).1.ui.buttons = w.ui.buttons ∧
    (submitAnswer w).1.ui =
      { w.ui with
        statusMessageText := (submitAnswer w).1.ui.statusMessageText,
        statusMessageClass := (submitAnswer w).1.ui.statusMessageClass } := by
  have ht : jsTrim w.ui.answerBox = "" := jsTrim_of_all_whitespace _ h
  unfold submitAnswer
  split
  · simp [ht, truthy_empty, setStatus]
  · simp [setStatus]

/-- Witness for C2: an active interview with a question and an answer box of
blanks, a tab and a line break. -/
theorem submitAnswer_blank_witness :
    (submitAnswer
      { state := { initialState with
          interviewActive := true,
          currentQuestion := some
            { id := 1, question := some "Tell me about yourself", category := none,
              difficulty := none, guidance := none } },
        ui := { blankPage with answerBox := "  \t\n " } }).2 = [] :=
  (submitAnswer_blank _ (by decide)).1

/-! ## Speech results -/

theorem onresultLoop_eq_scan (results : List SpeechResult) (n : Nat) :
    ∀ (i : Nat) (buffer interim : String), results.length - i = n →
      onresultLoop results i buffer interim =
        scanResults (results.drop i) buffer interim := by
  induction n with
  | zero =>
    intro i buffer interim hn
    have hi : ¬ i < results.length := by omega
    have hd : results.drop i = [] := List.drop_eq_nil_of_le (by omega)
    rw [onresultLoop, dif_neg hi, hd, scanResults]
  | succ n ih =>
    intro i buffer interim hn
    have hi : i < results.length := by omega
    rw [onresultLoop, dif_pos hi, List.drop_eq_getElem_cons hi, scanResults]
    by_cases hf : (results[i]).isFinal = true
    · simp only [hf, if_true]
      exact ih (i + 1) _ _ (by omega)
    · simp only [hf, if_false]
      exact ih (i + 1) _ _ (by omega)

theorem scanResults_eq (results : List SpeechResult) :
    ∀ (buffer interim : String),
      scanResults results buffer interim =
        (buffer ++ finalizedText results, lastInterimOr interim results) := by
  induction results with
  | nil =>
    intro buffer interim
    simp [scanResults, finalizedText, lastInterimOr, concatAll]
  | cons r rest ih =>
    intro buffer interim
    by_cases hf : r.isFinal = true
    · rw [scanResults, if_pos hf, ih]
      simp [finalizedText, lastInterimOr, concatAll, hf, String.append_assoc]
    · rw [scanResults, if_neg hf, ih]
      have hf2 : r.isFinal = false := by simpa using hf
      simp only [finalizedText, lastInterimOr, hf2, List.filter_cons, Bool.not_false,
        if_true, Bool.false_eq_true, if_false, List.getLast?_cons]
      cases (List.filter (fun r => !r.isFinal) rest).getLast? <;> simp

theorem onresultLoop_eq (results : List SpeechResult) (i : Nat) (buffer interim : String) :
    onresultLoop results i buffer interim =
      (buffer ++ finalizedText (results.drop i), lastInterimOr interim (results.drop i)) := by
  rw [onresultLoop_eq_scan results (results.length - i) i buffer interim rfl, scanResults_eq]

theorem finalizedText_of_all_interim (results : List SpeechResult)
    (h : ∀ r ∈ results, r.isFinal = false) : finalizedText results = "" := by
  have hnil : results.filter (fun r => r.isFinal) = [] := by
    rw [List.filter_eq_nil_iff]
    intro r hr
    simp [h r hr]
  simp [finalizedText, hnil, concatAll]

/-- C6: for every prior buffer and every result event, after `onresult` the buffer
is the prior buffer followed by the transcripts of exactly the finalized results at
positions `resultIndex` and later, in order, each followed by one space; when all
of those results are interim the buffer does not change; and the answer box shows
the trimmed concatenation of the new buffer and the transcript of the last interim
result among those positions (nothing when there is none). -/
theorem onresult_appends_finalized (w : World) (e : SpeechEvent) :
    (onresult w e).state.transcriptBuffer =
      w.state.transcriptBuffer ++ finalizedText (e.results.drop e.resultIndex) ∧
    ((∀ r ∈ e.results.drop e.resultIndex, r.isFinal = false) →
      (onresult w e).state.transcriptBuffer = w.state.transcriptBuffer) ∧
    (onresult w e).ui.answerBox =
      jsTrim ((onresult w e).state.transcriptBuffer ++
        lastInterim (e.results.drop e.resultIndex)) := by
  refine ⟨?_, ?_, ?_⟩
  · simp [onresult, onresultLoop_eq]
  · intro h
    simp [onresult, onresultLoop_eq, finalizedText_of_all_interim _ h]
  · simp [onresult, onresultLoop_eq, lastInterim]

/-- Witness for C6: an event whose changed results are one interim result, and one
with a final result followed by an interim one after an unchanged first result. -/
theorem onresult_appends_finalized_witness :
    (onresult { state := { initialState with transcriptBuffer := "hello " }, ui := blankPage }
      { resultIndex := 1,
        results := [⟨"hello", true⟩, ⟨"wor", false⟩] }).state.transcriptBuffer = "hello " ∧
    (onresult { state := { initialState with transcriptBuffer := "hello " }, ui := blankPage }
      { resultIndex := 1,
        results := [⟨"hello", true⟩, ⟨"world", true⟩, ⟨"how", false⟩] }).state.transcriptBuffer
      = "hello world " := by
  constructor
  · exact (onresult_appends_finalized _ _).2.1 (by decide)
  · rw [(onresult_appends_finalized _ _).1]
    decide

/-! ## Recording -/

/-- C3: `startRecording` sets `isRecording` to true and starts the recognizer if and
only if speech is supported, the interview is active, a question is current and no
recording is open; in every other case (an inactive interview with or without
speech support, a recording already open) `isRecording` and `transcriptBuffer`
stay as they were and `recognition.start` is not called. -/
theorem startRecording_iff (w : World) :
    (Effect.recognitionStart ∈ (startRecording w).2 ↔ canStartRecording w) ∧
    (canStartRecording w →
      startRecording w =
        ({ w with state := { w.state with isRecording := true } }, [.recognitionStart])) ∧
    (¬ canStartRecording w →
      (startRecording w).1.state.isRecording = w.state.isRecording ∧
      (startRecording w).1.state.transcriptBuffer = w.state.transcriptBuffer ∧
      Effect.recognitionStart ∉ (startRecording w).2) := by
  unfold canStartRecording startRecording
  cases h1 : w.state.speechSupported <;> cases h2 : w.state.recognition <;>
    cases h3 : w.state.interviewActive <;> cases h4 : w.state.currentQuestion <;>
    cases h5 : w.state.isRecording <;> simp [setStatus, h1, h2, h3, h4, h5]

/-- Witness for C3: with speech support, an active interview and a question the
recognizer starts; on the idle page with the same speech support it does not. -/
theorem startRecording_iff_witness :
    startRecording readyWorld =
      ({ readyWorld with state := { readyWorld.state with isRecording := true } },
        [.recognitionStart]) ∧
    Effect.recognitionStart ∉
      (startRecording { readyWorld with state := { readyWorld.state with
        interviewActive := false, currentQuestion := none } }).2 :=
  ⟨(startRecording_iff readyWorld).2.1 (by simp [canStartRecording, readyWorld, initialState]),
   ((startRecording_iff _).2.2
      (by simp [canStartRecording, readyWorld, initialState])).2.2⟩

/-- C10: on an end event `onend` calls `recognition.start` exactly when
`isRecording` is true, leaving the page as it is; otherwise it issues nothing and
only sets the indicator to Idle. Every start event empties `transcriptBuffer`, so
for every buffer contents `b`, after an end event with `isRecording` true and the
start event that follows the buffer is empty, and the buffer after a later result
event holds only that event's finalized text: nothing of `b` is part of it. -/
theorem onend_restart_drops_buffer (w : World) (b : String) (e : SpeechEvent) :
    (Effect.recognitionStart ∈ (onend w).2 ↔ w.state.isRecording = true) ∧
    (w.state.isRecording = true → onend w = (w, [.recognitionStart])) ∧
    (w.state.isRecording = false →
      onend w = ({ w with ui := { w.ui with
        recordingIndicatorText := "Idle",
        recordingIndicatorClass := "badge bg-secondary" } }, [])) ∧
    (onstart w).state.transcriptBuffer = "" ∧
    (w.state.isRecording = true →
      (onend { w with state := { w.state with transcriptBuffer := b } }).1.state.isRecording
        = true ∧
      (onstart (onend { w with state := { w.state with transcriptBuffer := b } }).1
        ).state.transcriptBuffer = "" ∧
      (onresult (onstart (onend { w with state := { w.state with transcriptBuffer := b } }).1)
        e).state.transcriptBuffer = finalizedText (e.results.drop e.resultIndex)) := by
  cases h : w.state.isRecording <;>
    simp [onend, onstart, onresult, onresultLoop_eq, h]

/-- Witness for C10: a recording with "hello " in the buffer; after the end event,
the restart and a result event that finalizes "world" the buffer is "world ". -/
theorem onend_restart_drops_buffer_witness :
    (onresult (onstart (onend { readyWorld with state := { readyWorld.state with
        isRecording := true, transcriptBuffer := "hello " } }).1)
      { resultIndex := 0, results := [⟨"world", true⟩] }).state.transcriptBuffer
      = "world " := by
  have h := (onend_restart_drops_buffer
    { readyWorld with state := { readyWorld.state with isRecording := true } }
    "hello " { resultIndex := 0, results := [⟨"world", true⟩] }).2.2.2.2 rfl
  exact h.2.2.trans (by decide)

/-! ## Rendering -/

@[simp]
theorem setStatus_state (w : World) (m t : String) :
    (setStatus w m t).state = w.state := rfl

@[simp]
theorem updateInteractionState_state (w : World) (enabled : Bool) :
    (updateInteractionState w enabled).state = w.state := by
  unfold updateInteractionState
  simp only []
  split <;> rfl

theorem renderQuestion_state (toUpperCase : String → String) (w : World)
    (question : Option Question) (index total : Option Nat) :
    (renderQuestion toUpperCase w question index total).state =
      match question with
      | some q => { w.state with currentQuestion := some q }
      | none => w.state := by
  cases question <;> rfl

theorem loadNextQuestionResume_state (toUpperCase : String → String) (w : World)
    (r : FetchResult QuestionData) :
    (loadNextQuestionResume toUpperCase w r).1.state =
      match r with
      | .response true data =>
        { w.state with
          totalQuestions := orNat data.total_questions w.state.totalQuestions,
          currentQuestion :=
            match data.question with
            | some q => some q
            | none => w.state.currentQuestion }
      | _ => w.state := by
  rcases r with m | ⟨ok, data⟩
  · simp [loadNextQuestionResume, loadNextQuestionCatch]
  · cases ok
    · simp [loadNextQuestionResume, loadNextQuestionCatch]
    · cases hq : data.question <;>
        simp [loadNextQuestionResume, renderQuestion_state, hq]

@[simp]
theorem record_w (s : Sys) (p : World × List Effect) : (s.record p).w = p.1 := rfl

theorem startInterviewResume_inv (toUpperCase : String → String) (w : World)
    (r : FetchResult QuestionData) (h : QuestionOnlyWhileActive w) :
    QuestionOnlyWhileActive (startInterviewResume toUpperCase w r).1 := by
  rcases r with m | ⟨ok, data⟩
  · exact h
  · cases ok
    · exact h
    · intro hf
      simp [startInterviewResume, renderQuestion_state] at hf
      cases hq : data.question <;> simp [hq] at hf

theorem startRecording_inv (w : World) (h : QuestionOnlyWhileActive w) :
    QuestionOnlyWhileActive (startRecording w).1 := by
  unfold startRecording
  split
  · exact h
  · split
    · exact h
    · split
      · exact h
      · exact h

theorem stopRecording_inv (w : World) (h : QuestionOnlyWhileActive w) :
    QuestionOnlyWhileActive (stopRecording w).1 := by
  unfold stopRecording
  split <;> exact h

theorem submitAnswer_state (w : World) : (submitAnswer w).1.state = w.state := by
  unfold submitAnswer
  split
  · simp only []
    split <;> simp
  · simp

theorem submitAnswer_inv (w : World) (h : QuestionOnlyWhileActive w) :
    QuestionOnlyWhileActive (submitAnswer w).1 := by
  unfold QuestionOnlyWhileActive
  rw [submitAnswer_state]
  exact h

theorem submitAnswerResume_state (w : World) (r : FetchResult SubmitData) :
    (submitAnswerResume w r).1.state = w.state := by
  rcases r with m | ⟨ok, data⟩
  · simp [submitAnswerResume, submitAnswerCatch]
  · cases ok <;> simp [submitAnswerResume, submitAnswerCatch, displayFeedback]

theorem loadNextQuestion_state (w : World) : (loadNextQuestion w).1 = w := by
  unfold loadNextQuestion
  split <;> rfl

theorem resetInterview_state (w : World) (message : String) :
    (resetInterview w message).state =
      { w.state with interviewActive := false, currentQuestion := none,
                     totalQuestions := 0 } := by
  simp [resetInterview]

theorem resetInterview_inv (w : World) (message : String) :
    QuestionOnlyWhileActive (resetInterview w message) := by
  intro _
  rw [resetInterview_state]

theorem onerror_inv (w : World) (error : Option String) (h : QuestionOnlyWhileActive w) :
    QuestionOnlyWhileActive (onerror w error).1 := by
  unfold onerror
  exact stopRecording_inv _ h

theorem onend_inv (w : World) (h : QuestionOnlyWhileActive w) :
    QuestionOnlyWhileActive (onend w).1 := by
  unfold onend
  split <;> exact h

theorem resumeEndListeners_inv (listeners : List Bool) :
    ∀ s : Sys, QuestionOnlyWhileActive s.w →
      QuestionOnlyWhileActive (resumeEndListeners s listeners).w := by
  induction listeners with
  | nil => intro s h; exact h
  | cons b rest ih =>
    intro s h
    cases b
    · exact ih s h
    · exact ih _ (submitAnswer_inv s.w h)

theorem loadNextQuestionResume_inv (toUpperCase : String → String) (s : Sys)
    (r : FetchResult QuestionData) (h : QuestionOnlyWhileActive s.w)
    (hl : isLateQuestion s (.nextSettled r) = false) :
    QuestionOnlyWhileActive (loadNextQuestionResume toUpperCase s.w r).1 := by
  unfold QuestionOnlyWhileActive
  rw [loadNextQuestionResume_state]
  rcases r with m | ⟨ok, data⟩
  · exact h
  · cases ok
    · exact h
    · intro ha
      have ha2 : s.w.state.interviewActive = false := ha
      cases hq : data.question with
      | none => simpa [hq] using h ha2
      | some q => simp [isLateQuestion, ha2, hq] at hl

theorem step_inv (toUpperCase : String → String) (s : Sys) (e : Event)
    (h : QuestionOnlyWhileActive s.w) (hl : isLateQuestion s e = false) :
    QuestionOnlyWhileActive (step toUpperCase s e).w := by
  cases e with
  | clickStart form =>
    simp only [step]
    split
    · exact h
    · exact h
  | startSettled r =>
    simp only [step]
    split
    · exact h
    · exact startInterviewResume_inv toUpperCase s.w r h
  | clickRecord =>
    simp only [step]
    split
    · exact h
    · exact startRecording_inv s.w h
  | clickStopSend =>
    simp only [step]
    split
    · exact h
    · split
      · exact stopRecording_inv s.w h
      · exact submitAnswer_inv _ (stopRecording_inv s.w h)
  | clickNext =>
    simp only [step]
    split
    · exact h
    · simp only [record_w, nextClick]
      split
      · exact h
      · rw [loadNextQuestion_state]; exact h
  | clickSkip =>
    simp only [step]
    split
    · exact h
    · simp only [record_w, skipClick]
      rw [loadNextQuestion_state]; exact h
  | clickEnd =>
    simp only [step]
    split
    · exact h
    · exact resetInterview_inv _ _
  | nextSettled r =>
    simp only [step]
    split
    · exact h
    · exact loadNextQuestionResume_inv toUpperCase s r h hl
  | submitSettled r =>
    simp only [step]
    split
    · exact h
    · simp only [record_w, QuestionOnlyWhileActive]
      rw [submitAnswerResume_state]; exact h
  | timerFired =>
    simp only [step]
    split
    · exact h
    · simp only [record_w]
      rw [loadNextQuestion_state]; exact h
  | typeAnswer text => exact h
  | speechStart =>
    simp only [step]
    split
    · exact h
    · exact h
  | speechResult ev =>
    simp only [step]
    split
    · exact h
    · exact h
  | speechError error =>
    simp only [step]
    split
    · exact h
    · split
      · exact onerror_inv s.w error h
      · exact onerror_inv s.w error h
  | speechEnd =>
    simp only [step]
    split
    · exact h
    · exact resumeEndListeners_inv _ _ (onend_inv s.w h)
  | cameraStream =>
    simp only [step]
    split <;> exact h
  | cameraError =>
    simp only [step]
    split <;> exact h

theorem run_inv (toUpperCase : String → String) (events : List Event) :
    ∀ s : Sys, QuestionOnlyWhileActive s.w →
      noLateQuestion toUpperCase s events = true →
      QuestionOnlyWhileActive (run toUpperCase s events).w := by
  induction events with
  | nil => intro s h _; exact h
  | cons e rest ih =>
    intro s h hn
    simp only [noLateQuestion, Bool.and_eq_true, Bool.not_eq_true'] at hn
    exact ih _ (step_inv toUpperCase s e h hn.1) hn.2

theorem domContentLoaded_inv (page : Ui) (hasMedia speechApi : Bool) (language : String) :
    QuestionOnlyWhileActive (domContentLoaded page hasMedia speechApi language).w := by
  intro _
  cases hasMedia <;> cases speechApi <;>
    simp [domContentLoaded, initCamera, initSpeechRecognition, initialState]

/-- C5, as the code has it: in every state reached from the loaded page by any
sequence of user actions, recognizer and camera events, timer firings and
completions of outstanding requests in which no successful next-question response
carrying a question arrives while the interview is inactive, `currentQuestion` is
null whenever `interviewActive` is false. -/
theorem question_null_while_inactive (toUpperCase : String → String) (page : Ui)
    (hasMedia speechApi : Bool) (language : String) (events : List Event)
    (h : noLateQuestion toUpperCase
      (domContentLoaded page hasMedia speechApi language) events = true) :
    (run toUpperCase (domContentLoaded page hasMedia speechApi language)
      events).w.state.interviewActive = false →
    (run toUpperCase (domContentLoaded page hasMedia speechApi language)
      events).w.state.currentQuestion = none :=
  run_inv toUpperCase events _ (domContentLoaded_inv page hasMedia speechApi language) h

/-- Witness for C5: start, first question, next, second question, end; every
response arrives while the interview is active, and after the end no question is
current. -/
theorem question_null_while_inactive_witness :
    noLateQuestion asciiUpper (domContentLoaded blankPage false false "en-US")
      orderlyRun = true ∧
    (run asciiUpper (domContentLoaded blankPage false false "en-US")
      orderlyRun).w.state.interviewActive = false ∧
    (run asciiUpper (domContentLoaded blankPage false false "en-US")
      orderlyRun).w.state.currentQuestion = none :=
  ⟨by decide, by decide,
   question_null_while_inactive asciiUpper blankPage false false "en-US" orderlyRun
     (by decide) (by decide)⟩

/-- Counterexample to C5 as stated: the user starts, asks for the next question and
ends the interview; the response then arrives and `renderQuestion` makes its
question current while `interviewActive` is false. -/
theorem late_response_sets_question :
    lateResponseRun.w.state.interviewActive = false ∧
    lateResponseRun.w.state.currentQuestion = secondQuestion.question ∧
    lateResponseRun.w.state.currentQuestion ≠ none ∧
    lateResponseRun.log.count Effect.fetchNext = 1 := by
  decide

/-! ## Ending an interview while recording -/

/-- C9 on the code: `resetInterview` leaves `isRecording` and `transcriptBuffer` as
they were, for every state. In the run where the user starts an interview, starts a
recording and presses End, the interview is inactive but `isRecording` is still
true, the record and stop-and-send buttons are disabled (a click on stop-and-send
changes nothing), and the recognizer's end event that follows calls
`recognition.start` again. -/
theorem resetInterview_keeps_recording :
    (∀ (w : World) (message : String),
      (resetInterview w message).state.isRecording = w.state.isRecording ∧
      (resetInterview w message).state.transcriptBuffer = w.state.transcriptBuffer) ∧
    endWhileRecording.w.state.interviewActive = false ∧
    endWhileRecording.w.state.isRecording = true ∧
    endWhileRecording.w.ui.buttons.record = true ∧
    endWhileRecording.w.ui.buttons.stopSend = true ∧
    step asciiUpper endWhileRecording .clickStopSend = endWhileRecording ∧
    (onend endWhileRecording.w).2 = [Effect.recognitionStart] ∧
    (step asciiUpper endWhileRecording .speechEnd).log.count Effect.recognitionStart = 2 := by
  refine ⟨fun w message => ?_, ?_⟩
  · rw [resetInterview_state]
    exact ⟨rfl, rfl⟩
  · decide

end Interview
